import Mathlib

/-!
Shallow embedding of `pyeapi/eapilib.py` (eAPI connection layer).

Each definition below transcribes one Python definition from the source file;
comments give the source line numbers.  External collaborators (the `json`
module, `socket`, `httplib`, the `debug` sink) are modelled by their observable
behaviour at the boundary of `send`: a `WireResult` value says what the single
request/response exchange did, and the transport-level activity of a call is
recorded as a list of `TAct` actions (open, request line, headers, body, read,
close), mirroring the stub-transport view used by the specification.
-/

namespace Pyeapi

/-- JSON values, the decode target of `json.loads` for response envelopes. -/
inductive Json where
  | null : Json
  | bool (b : Bool) : Json
  | num (n : Int) : Json
  | str (s : String) : Json
  | arr (elems : List Json) : Json
  | obj (members : List (String × Json)) : Json

/-- A decoded JSON object (Python dict), as an association list. -/
abbrev JsonObj := List (String × Json)

/-- Python dict lookup (`d[k]` / `k in d`) on a decoded object. -/
def lookupKey (k : String) : JsonObj → Option Json
  | [] => none
  | (k', v) :: rest => if k' = k then some v else lookupKey k rest

/-- eapilib.py line 47. -/
def DEFAULT_HTTP_PORT : Nat := 80

/-- eapilib.py line 48. -/
def DEFAULT_HTTPS_PORT : Nat := 443

/-- eapilib.py line 49. -/
def DEFAULT_HTTP_LOCAL_PORT : Nat := 8080

/-- eapilib.py line 50. -/
def DEFAULT_HTTP_PATH : String := "/command-api"

/-- eapilib.py line 51. -/
def DEFAULT_UNIX_SOCKET : String := "/var/run/command-api.sock"

/-- The attribute state of a `CommandError` instance (lines 70-91). -/
structure CommandErrorExc where
  error_code : Int
  error_text : String
  commands : Option (List String)
  message : String
deriving DecidableEq

/-- `EapiError.__init__(message, commands=None)` (lines 65-68), as the effect
it has on the attributes of a `CommandError` instance being constructed: it
assigns `self.message` and `self.commands`. -/
def EapiError.initOn (message : String) (commands : Option (List String))
    (e : CommandErrorExc) : CommandErrorExc :=
  { e with message := message, commands := commands }

/-- `CommandError.__init__(code, message, commands=None)` (lines 86-91).
The four assignments run first; the final `super(CommandError,
self).__init__(message)` call then runs `EapiError.__init__` with `message`
and the default `commands=None`, reassigning both attributes. -/
def CommandError.init (code : Int) (message : String)
    (commands : Option (List String)) : CommandErrorExc :=
  EapiError.initOn message none
    { error_code := code
      error_text := message
      commands := commands
      message := "Error [" ++ toString code ++ "]: " ++ message }

/-- The attribute state of a `ConnectionError` instance (lines 93-113). -/
structure ConnectionErrorExc where
  connection_type : String
  message : String
  commands : Option (List String)
deriving DecidableEq

/-- `ConnectionError.__init__(connection_type, message, commands=None)`
(lines 109-113).  The trailing `super().__init__(message)` call reassigns
`self.message = message` (unchanged) and `self.commands = None` (its default),
so the `commands` argument never survives construction. -/
def ConnectionError.init (connection_type : String) (message : String)
    (_commands : Option (List String)) : ConnectionErrorExc :=
  { connection_type := connection_type
    message := message
    commands := none }

/-- The three transport classes (lines 117-146): `SocketConnection(path)`,
`HttpConnection(path, host, port)`, `HttpsConnection(path, host, port)`,
keeping exactly the fields their `__str__` methods and constructors use. -/
inductive Transport where
  | socket (path : String)
  | http (path : String) (host : String) (port : Nat)
  | https (path : String) (host : String) (port : Nat)
deriving DecidableEq

/-- The `__str__` methods of the three transport classes (lines 123-124,
136-137, 145-146).  `'%s' % port` prints the port in decimal.  Note the
`https` variant ignores its stored path and prints the literal
`/command-api`. -/
def Transport.toStr : Transport → String
  | .socket path => "unix:" ++ path
  | .http path host port => "http://" ++ host ++ ":" ++ toString port ++ "/" ++ path
  | .https _ host port => "https://" ++ host ++ ":" ++ toString port ++ "/command-api"

/-- The low-level exception classes that `send` catches (line 309):
`socket.error` for transport failures and `ValueError` for `json.loads`
failures on a malformed body. -/
inductive RawExc where
  | socketError
  | valueError
deriving DecidableEq

/-- What the `error` attribute of an `EapiConnection` can hold: the raw
low-level exception stored at line 310, or the typed exception stored by
`execute` at lines 355 and 360. -/
inductive StoredError where
  | raw (e : RawExc)
  | conn (e : ConnectionErrorExc)
  | cmd (e : CommandErrorExc)
deriving DecidableEq

/-- The attribute state of an `EapiConnection` (lines 148-159).  `__init__`
sets `transport`/`error`/`_auth` to `None`; the four variant constructors
always assign a transport before the object is used, so `transport` is kept
total here.  `instId` stands for CPython's `id(self)`, the opaque
per-instance number used as the default request id (line 217). -/
structure EapiConnection where
  transport : Transport
  error : Option StoredError
  _auth : Option String
  instId : Nat
deriving DecidableEq

/-- `EapiConnection.__str__` (lines 161-162):
`'EapiConnection(transport=%s)' % self.transport`. -/
def EapiConnection.toStr (c : EapiConnection) : String :=
  "EapiConnection(transport=" ++ c.transport.toStr ++ ")"

/-- The standard base64 alphabet used by Python's `base64` module. -/
def b64Alphabet : List Char :=
  "ABCDEFGHIJKLMNOPQRSTUVWXYZabcdefghijklmnopqrstuvwxyz0123456789+/".data

/-- The base64 character for a 6-bit value. -/
def b64Char (n : Nat) : Char := b64Alphabet.getD n '='

/-- Encode one final group of 1, 2 or 3 bytes into 4 base64 characters,
padding with `=` as the RFC prescribes. -/
def b64Group : List Nat → List Char
  | [a] => [b64Char (a / 4), b64Char (a % 4 * 16), '=', '=']
  | [a, b] => [b64Char (a / 4), b64Char (a % 4 * 16 + b / 16), b64Char (b % 16 * 4), '=']
  | [a, b, c] => [b64Char (a / 4), b64Char (a % 4 * 16 + b / 16),
                  b64Char (b % 16 * 4 + c / 64), b64Char (c % 64)]
  | _ => []

/-- Plain base64 of a byte sequence (`base64.b64encode`). -/
def b64EncodeBytes : List Nat → List Char
  | [] => []
  | [a] => b64Group [a]
  | [a, b] => b64Group [a, b]
  | a :: b :: c :: rest => b64Group [a, b, c] ++ b64EncodeBytes rest

/-- `base64.encodestring`: MIME base64, which encodes the input in chunks of
57 bytes (76 output characters) and ends every chunk with a newline.  The
`fuel` argument only bounds the recursion; `encodestring` supplies enough. -/
def encodestringAux : Nat → List Nat → List Char
  | _, [] => []
  | 0, _ => []
  | fuel + 1, bs =>
      b64EncodeBytes (bs.take 57) ++ '\n' :: encodestringAux fuel (bs.drop 57)

/-- `base64.encodestring` on a byte sequence. -/
def encodestring (bs : List Nat) : List Char := encodestringAux bs.length bs

/-- The bytes of a Python 2 `str` (the code runs on byte strings; for the
ASCII credentials eAPI uses, the byte values are the character codes). -/
def strBytes (s : String) : List Nat := s.data.map Char.toNat

/-- Python's `str` conversion applied to an optional argument: `None`
formats as the string `None`. -/
def pyStr : Option String → String
  | none => "None"
  | some s => s

/-- `EapiConnection.authentication(username, password)` (lines 164-178):
`base64.encodestring('{0}:{1}'.format(username, password))` followed by
`str(_auth).replace(chr(10), '')`, stored in `self._auth`. -/
def EapiConnection.authentication (conn : EapiConnection)
    (username password : String) : EapiConnection :=
  let auth := encodestring (strBytes (username ++ ":" ++ password))
  { conn with _auth := some (String.mk (auth.filter (fun c => c ≠ '\n'))) }

/-- The eAPI request envelope built by `EapiConnection.request`
(lines 216-220), before JSON serialization.  `format` is `Option` because
the Python `encoding` parameter defaults to `None`. -/
structure RequestEnvelope where
  jsonrpc : String
  method : String
  version : Int
  cmds : List String
  format : Option String
  id : String
deriving DecidableEq

/-- `EapiConnection.request(commands, encoding=None, reqid=None)`
(lines 180-220): `reqid = id(self) if reqid is None else reqid`, then the
envelope is built with `str(reqid)` as its id. -/
def EapiConnection.request (conn : EapiConnection) (commands : List String)
    (encoding : Option String) (reqid : Option Nat) : RequestEnvelope :=
  let rid : String :=
    match reqid with
    | none => toString conn.instId
    | some r => toString r
  { jsonrpc := "2.0", method := "runCmds", version := 1
    cmds := commands, format := encoding, id := rid }

/-- Wrap a string in JSON quotes (the command strings and ids the claims
use contain no characters needing escapes). -/
def jsonQuote (s : String) : String := "\"" ++ s ++ "\""

/-- Serialize the `format` member: `None` serializes as `null`. -/
def dumpsFormat : Option String → String
  | none => "null"
  | some s => jsonQuote s

/-- Serialize the command list. -/
def dumpsCmds (cmds : List String) : String :=
  "[" ++ String.intercalate ", " (cmds.map jsonQuote) ++ "]"

/-- `json.dumps` of the request envelope, in the member order of the
dictionary literal at lines 218-220. -/
def dumps (r : RequestEnvelope) : String :=
  "\x7b\"jsonrpc\": " ++ jsonQuote r.jsonrpc ++ ", \"method\": " ++ jsonQuote r.method ++
    ", \"params\": \x7b\"version\": " ++ toString r.version ++ ", \"cmds\": " ++
    dumpsCmds r.cmds ++ ", \"format\": " ++ dumpsFormat r.format ++
    "\x7d, \"id\": " ++ jsonQuote r.id ++ "\x7d"

/-- One transport-level action of a `send` call, as a stub transport would
record it: the connection attempt, the request line (`putrequest`), a header
(`putheader`), the end-of-headers flush, the body write, the response read
(successful or failing), and the close. -/
inductive TAct where
  | openT
  | putRequest (method : String) (path : String)
  | putHeader (key : String) (value : String)
  | endHeaders
  | sendBody (data : String)
  | readResponse
  | readFail
  | closeT
deriving DecidableEq

/-- The observable behaviour of the external transport and JSON decoder for
one exchange: the connection attempt fails (`socket.error`); the exchange
fails while writing or reading (`socket.error`); the body is read but
`json.loads` raises `ValueError`; or the body decodes to a JSON object. -/
inductive WireResult where
  | openError
  | ioError
  | badPayload
  | reply (decoded : JsonObj)

/-- Outcomes in which the HTTP request (line and headers) is written to the
transport, i.e. every outcome except a failed connection attempt. -/
def WireResult.writesRequest : WireResult → Prop
  | .openError => False
  | _ => True

/-- The headers written by `send` (lines 288-293): `Content-type`,
`Content-length`, and — only when `self._auth` is truthy (a non-empty
string) — `Authorization: Basic <token>`. -/
def sendHeaderActs (conn : EapiConnection) (data : String) : List TAct :=
  [.putHeader "Content-type" "application/json-rpc",
   .putHeader "Content-length" (toString data.length)]
    ++ (match conn._auth with
        | some tok => if tok = "" then [] else [.putHeader "Authorization" ("Basic " ++ tok)]
        | none => [])

/-- The write half of a `send` exchange (lines 286-296): the connection
attempt, `putrequest('POST', '/command-api')` with its literal path, the
headers, `endheaders()` and the body. -/
def writeActs (conn : EapiConnection) (data : String) : List TAct :=
  .openT :: .putRequest "POST" "/command-api" ::
    (sendHeaderActs conn data ++ [.endHeaders, .sendBody data])

/-- What `send` returns or raises after the exchange: the decoded envelope,
a `CommandError`, a `ConnectionError`, or an uncaught exception (a
`KeyError`/`TypeError` escaping from `decoded['error']['message']` when the
error member is not a well-formed object — not caught at line 309). -/
inductive SendResult where
  | success (decoded : JsonObj)
  | cmdErr (e : CommandErrorExc)
  | connErr (e : ConnectionErrorExc)
  | pyErr

/-- Lines 302-307: if `'error' in decoded`, read
`decoded['error']['message']` and `decoded['error']['code']` and raise
`CommandError(code, message)`; otherwise return `decoded`. -/
def decodedDispatch (decoded : JsonObj) : SendResult :=
  match lookupKey "error" decoded with
  | none => .success decoded
  | some (.obj errObj) =>
      match lookupKey "message" errObj, lookupKey "code" errObj with
      | some (.str m), some (.num c) => .cmdErr (CommandError.init c m none)
      | _, _ => .pyErr
  | some _ => .pyErr

/-- `EapiConnection.send(data)` (lines 222-314).  Returns the result, the
connection state after the call (line 310 stores the raw `socket.error` /
`ValueError` in `self.error` before the `ConnectionError` is raised), and
the transport action log.  The `finally` block (lines 313-314) closes the
transport on every path, so every log ends with a single close. -/
def EapiConnection.send (conn : EapiConnection) (data : String)
    (outcome : WireResult) : SendResult × EapiConnection × List TAct :=
  match outcome with
  | .openError =>
      (.connErr (ConnectionError.init conn.toStr "unable to connect to eAPI" none),
       { conn with error := some (.raw .socketError) },
       [.openT, .closeT])
  | .ioError =>
      (.connErr (ConnectionError.init conn.toStr "unable to connect to eAPI" none),
       { conn with error := some (.raw .socketError) },
       writeActs conn data ++ [.readFail, .closeT])
  | .badPayload =>
      (.connErr (ConnectionError.init conn.toStr "unable to connect to eAPI" none),
       { conn with error := some (.raw .valueError) },
       writeActs conn data ++ [.readResponse, .closeT])
  | .reply decoded =>
      (decodedDispatch decoded, conn,
       writeActs conn data ++ [.readResponse, .closeT])

/-- What `execute` returns or raises: the decoded envelope, a typed
exception, the `TypeError` from the encoding check (line 345), or an
uncaught low-level exception passed through from `send`. -/
inductive ExecuteResult where
  | success (decoded : JsonObj)
  | cmdErr (e : CommandErrorExc)
  | connErr (e : ConnectionErrorExc)
  | typeError (msg : String)
  | pyErr

/-- `EapiConnection.execute(commands, encoding='json', **kwargs)`
(lines 317-361): reject an unsupported encoding before any other work;
otherwise reset `self.error`, build the request, send it, and on a
`ConnectionError` or `CommandError` attach the command list to the
exception and store it in `self.error` before re-raising. -/
def EapiConnection.execute (conn : EapiConnection) (commands : List String)
    (encoding : String) (reqid : Option Nat) (outcome : WireResult) :
    ExecuteResult × EapiConnection × List TAct :=
  if encoding = "json" ∨ encoding = "text" then
    let conn1 : EapiConnection := { conn with error := none }
    let data := dumps (conn1.request commands (some encoding) reqid)
    match conn1.send data outcome with
    | (.success decoded, conn2, acts) => (.success decoded, conn2, acts)
    | (.cmdErr e, conn2, acts) =>
        let e2 := { e with commands := some commands }
        (.cmdErr e2, { conn2 with error := some (.cmd e2) }, acts)
    | (.connErr e, conn2, acts) =>
        let e2 := { e with commands := some commands }
        (.connErr e2, { conn2 with error := some (.conn e2) }, acts)
    | (.pyErr, conn2, acts) => (.pyErr, conn2, acts)
  else
    (.typeError "encoding must be one of [json, text]", conn, [])

/-- Python's `x or default` for an optional string argument: `None` and the
empty string are falsy and select the default. -/
def pyOrStr : Option String → String → String
  | none, d => d
  | some s, d => if s = "" then d else s

/-- Python's `x or default` for an optional port: `None` and `0` are falsy
and select the default. -/
def pyOrNat : Option Nat → Nat → Nat
  | none, d => d
  | some n, d => if n = 0 then d else n

/-- `SocketEapiConnection(path=None, **kwargs)` (lines 363-367). -/
def SocketEapiConnection (path : Option String) (instId : Nat) : EapiConnection :=
  { transport := .socket (pyOrStr path DEFAULT_UNIX_SOCKET)
    error := none, _auth := none, instId := instId }

/-- `HttpLocalEapiConnection(port=None, path=None, **kwargs)`
(lines 369-374). -/
def HttpLocalEapiConnection (port : Option Nat) (path : Option String)
    (instId : Nat) : EapiConnection :=
  { transport := .http (pyOrStr path DEFAULT_HTTP_PATH) "localhost"
      (pyOrNat port DEFAULT_HTTP_LOCAL_PORT)
    error := none, _auth := none, instId := instId }

/-- `HttpEapiConnection(host, port=None, path=None, username=None,
password=None, **kwargs)` (lines 376-383): wires the transport and then
unconditionally calls `self.authentication(username, password)`. -/
def HttpEapiConnection (host : String) (port : Option Nat)
    (path : Option String) (username password : Option String)
    (instId : Nat) : EapiConnection :=
  EapiConnection.authentication
    { transport := .http (pyOrStr path DEFAULT_HTTP_PATH) host
        (pyOrNat port DEFAULT_HTTP_PORT)
      error := none, _auth := none, instId := instId }
    (pyStr username) (pyStr password)

/-- `HttpsEapiConnection(host, port=None, path=None, username=None,
password=None, **kwargs)` (lines 385-392). -/
def HttpsEapiConnection (host : String) (port : Option Nat)
    (path : Option String) (username password : Option String)
    (instId : Nat) : EapiConnection :=
  EapiConnection.authentication
    { transport := .https (pyOrStr path DEFAULT_HTTP_PATH) host
        (pyOrNat port DEFAULT_HTTPS_PORT)
      error := none, _auth := none, instId := instId }
    (pyStr username) (pyStr password)

/-- Plain (single-line) base64 of a string's bytes. -/
def plainB64 (s : String) : String := String.mk (b64EncodeBytes (strBytes s))

/-- Number of connection attempts in a transport action log. -/
def countOpens : List TAct → Nat
  | [] => 0
  | .openT :: rest => countOpens rest + 1
  | _ :: rest => countOpens rest

/-- Number of close calls in a transport action log. -/
def countCloses : List TAct → Nat
  | [] => 0
  | .closeT :: rest => countCloses rest + 1
  | _ :: rest => countCloses rest

/-- The `connection_type` attribute of the `ConnectionError` a call raised,
if it raised one. -/
def ExecuteResult.connTypeOf : ExecuteResult → Option String
  | .connErr e => some e.connection_type
  | _ => none

/-- Outcomes in which the exchange fails before a decoded envelope exists
(the failures line 309 catches). -/
def WireResult.isFailure : WireResult → Prop
  | .reply _ => False
  | _ => True

/-- A sample connection used by concrete evaluations: the socket variant
with its default path. -/
def connS : EapiConnection := SocketEapiConnection none 42

/-! ### Base64 facts -/

theorem b64Char_ne_newline (n : Nat) : b64Char n ≠ '\n' := by
  have hb : ∀ m, m < 64 → b64Alphabet.getD m '=' ≠ '\n' := by decide
  by_cases h : n < 64
  · exact hb n h
  · unfold b64Char
    rw [List.getD_eq_default]
    · decide
    · have : b64Alphabet.length = 64 := by decide
      omega

theorem b64Group_ne_newline (g : List Nat) (c : Char)
    (hc : c ∈ b64Group g) : c ≠ '\n' := by
  rcases g with _ | ⟨a, _ | ⟨b, _ | ⟨d, _ | ⟨e, rest⟩⟩⟩⟩
  · simp [b64Group] at hc
  · simp only [b64Group, List.mem_cons, List.not_mem_nil, or_false] at hc
    rcases hc with h | h | h | h <;> subst h
    · exact b64Char_ne_newline _
    · exact b64Char_ne_newline _
    · decide
    · decide
  · simp only [b64Group, List.mem_cons, List.not_mem_nil, or_false] at hc
    rcases hc with h | h | h | h <;> subst h
    · exact b64Char_ne_newline _
    · exact b64Char_ne_newline _
    · exact b64Char_ne_newline _
    · decide
  · simp only [b64Group, List.mem_cons, List.not_mem_nil, or_false] at hc
    rcases hc with h | h | h | h <;> subst h <;> exact b64Char_ne_newline _
  · simp [b64Group] at hc

theorem b64EncodeBytes_ne_newline :
    ∀ (bs : List Nat) (c : Char), c ∈ b64EncodeBytes bs → c ≠ '\n'
  | [], _, hc => by simp [b64EncodeBytes] at hc
  | [a], c, hc => b64Group_ne_newline [a] c (by simpa [b64EncodeBytes] using hc)
  | [a, b], c, hc => b64Group_ne_newline [a, b] c (by simpa [b64EncodeBytes] using hc)
  | a :: b :: d :: rest, c, hc => by
      rw [b64EncodeBytes] at hc
      rcases List.mem_append.1 hc with h | h
      · exact b64Group_ne_newline [a, b, d] c h
      · exact b64EncodeBytes_ne_newline rest c h

theorem b64EncodeBytes_append :
    ∀ (a b : List Nat), a.length % 3 = 0 →
      b64EncodeBytes (a ++ b) = b64EncodeBytes a ++ b64EncodeBytes b
  | [], _, _ => by simp [b64EncodeBytes]
  | [x], _, h => by simp at h
  | [x, y], _, h => by simp at h
  | x :: y :: z :: rest, b, h => by
      have h3 : rest.length % 3 = 0 := by
        simp only [List.length_cons] at h
        omega
      simp only [List.cons_append, b64EncodeBytes, List.append_eq]
      rw [b64EncodeBytes_append rest b h3, List.append_assoc]

theorem encodestringAux_filter :
    ∀ (fuel : Nat) (bs : List Nat), bs.length ≤ fuel →
      (encodestringAux fuel bs).filter (fun c => c ≠ '\n') = b64EncodeBytes bs
  | fuel, [], _ => by cases fuel <;> simp [encodestringAux, b64EncodeBytes]
  | 0, b :: bs, h => by simp at h
  | fuel + 1, b :: bs, h => by
      have h1 : ((b :: bs).drop 57).length ≤ fuel := by
        rw [List.length_drop]
        simp only [List.length_cons] at h ⊢
        omega
      have hfilter : (b64EncodeBytes ((b :: bs).take 57)).filter (fun c => c ≠ '\n')
          = b64EncodeBytes ((b :: bs).take 57) := by
        refine List.filter_eq_self.2 (fun c hc => ?_)
        simpa using b64EncodeBytes_ne_newline _ c hc
      rw [show encodestringAux (fuel + 1) (b :: bs)
            = b64EncodeBytes ((b :: bs).take 57)
              ++ '\n' :: encodestringAux fuel ((b :: bs).drop 57) from rfl,
        List.filter_append, hfilter, List.filter_cons_of_neg (by simp),
        encodestringAux_filter fuel _ h1]
      by_cases hlen : 57 ≤ (b :: bs).length
      · have htake3 : ((b :: bs).take 57).length % 3 = 0 := by
          rw [List.length_take]
          omega
        have hsplit := b64EncodeBytes_append ((b :: bs).take 57) ((b :: bs).drop 57) htake3
        rw [List.take_append_drop] at hsplit
        exact hsplit.symm
      · have hdrop : (b :: bs).drop 57 = [] := by
          apply List.drop_eq_nil_of_le
          omega
        have htake : (b :: bs).take 57 = b :: bs :=
          List.take_of_length_le (by omega)
        rw [hdrop, htake]
        simp [b64EncodeBytes]

theorem authentication_auth (conn : EapiConnection) (u p : String) :
    (conn.authentication u p)._auth = some (plainB64 (u ++ ":" ++ p)) := by
  show some (String.mk ((encodestringAux (strBytes (u ++ ":" ++ p)).length
      (strBytes (u ++ ":" ++ p))).filter (fun c => c ≠ '\n'))) = _
  rw [encodestringAux_filter _ _ le_rfl]
  rfl

theorem b64EncodeBytes_ne_nil :
    ∀ (bs : List Nat), bs ≠ [] → b64EncodeBytes bs ≠ []
  | [], h => absurd rfl h
  | [_] , _ => by simp [b64EncodeBytes, b64Group]
  | [_, _], _ => by simp [b64EncodeBytes, b64Group]
  | _ :: _ :: _ :: _, _ => by simp [b64EncodeBytes, b64Group]

theorem plainB64_auth_ne_empty (u p : String) : plainB64 (u ++ ":" ++ p) ≠ "" := by
  intro h
  have hdata : b64EncodeBytes (strBytes (u ++ ":" ++ p)) = [] := by
    have := congrArg String.data h
    simpa [plainB64] using this
  have hne : strBytes (u ++ ":" ++ p) ≠ [] := by
    have hlen : (u ++ ":" ++ p).length = u.length + 1 + p.length := by
      rw [String.length_append, String.length_append]
      rfl
    intro hempty
    have : (u ++ ":" ++ p).data.length = 0 := by
      simpa [strBytes] using congrArg List.length hempty
    rw [show (u ++ ":" ++ p).data.length = (u ++ ":" ++ p).length from rfl, hlen] at this
    omega
  exact b64EncodeBytes_ne_nil _ hne hdata

/-! ### Decimal string facts -/

theorem toDigitsCore_length_le (b : Nat) :
    ∀ (fuel n : Nat) (ds : List Char),
      ds.length ≤ (Nat.toDigitsCore b fuel n ds).length
  | 0, _, _ => le_rfl
  | fuel + 1, n, ds => by
      simp only [Nat.toDigitsCore]
      split
      · simp
      · exact le_trans (by simp)
          (toDigitsCore_length_le b fuel (n / b) (Nat.digitChar (n % b) :: ds))

theorem toDigits_length_pos (b n : Nat) : 0 < (Nat.toDigits b n).length := by
  unfold Nat.toDigits
  rw [Nat.toDigitsCore]
  split
  · simp
  · calc 0 < [Nat.digitChar (n % b)].length := by simp
      _ ≤ _ := toDigitsCore_length_le b n (n / b) _

theorem natToString_ne_empty (n : Nat) : toString n ≠ "" := by
  intro h
  have h2 : (Nat.toDigits 10 n).length = 0 := by
    have h1 : (String.mk (Nat.toDigits 10 n)).data.length = ("" : String).data.length :=
      congrArg (fun s => s.data.length)
        (show String.mk (Nat.toDigits 10 n) = "" from h)
    simpa using h1
  have := toDigits_length_pos 10 n
  omega

/-! ### Transport action log facts -/

theorem countOpens_append (xs ys : List TAct) :
    countOpens (xs ++ ys) = countOpens xs + countOpens ys := by
  induction xs with
  | nil => simp [countOpens]
  | cons t rest ih => cases t <;> simp [countOpens, ih] <;> omega

theorem countCloses_append (xs ys : List TAct) :
    countCloses (xs ++ ys) = countCloses xs + countCloses ys := by
  induction xs with
  | nil => simp [countCloses]
  | cons t rest ih => cases t <;> simp [countCloses, ih] <;> omega

theorem countOpens_headers (conn : EapiConnection) (data : String) :
    countOpens (sendHeaderActs conn data) = 0 := by
  unfold sendHeaderActs
  rcases conn._auth with _ | tok
  · simp [countOpens]
  · by_cases h : tok = "" <;> simp [h, countOpens, countOpens_append]

theorem countCloses_headers (conn : EapiConnection) (data : String) :
    countCloses (sendHeaderActs conn data) = 0 := by
  unfold sendHeaderActs
  rcases conn._auth with _ | tok
  · simp [countCloses]
  · by_cases h : tok = "" <;> simp [h, countCloses, countCloses_append]

theorem countOpens_writeActs (conn : EapiConnection) (data : String) :
    countOpens (writeActs conn data) = 1 := by
  unfold writeActs sendHeaderActs
  rcases conn._auth with _ | tok
  · simp [countOpens, countOpens_append]
  · by_cases h : tok = "" <;> simp [h, countOpens, countOpens_append]

theorem countCloses_writeActs (conn : EapiConnection) (data : String) :
    countCloses (writeActs conn data) = 0 := by
  unfold writeActs sendHeaderActs
  rcases conn._auth with _ | tok
  · simp [countCloses, countCloses_append]
  · by_cases h : tok = "" <;> simp [h, countCloses, countCloses_append]

theorem putRequest_not_in_headers (conn : EapiConnection) (data m p : String) :
    TAct.putRequest m p ∉ sendHeaderActs conn data := by
  unfold sendHeaderActs
  rcases conn._auth with _ | tok
  · simp
  · by_cases h : tok = "" <;> simp [h]

theorem send_counts (conn : EapiConnection) (data : String) (outcome : WireResult) :
    countOpens (conn.send data outcome).2.2 = 1
      ∧ countCloses (conn.send data outcome).2.2 = 1 := by
  cases outcome with
  | openError => exact ⟨rfl, rfl⟩
  | ioError =>
      constructor
      · show countOpens (writeActs conn data ++ [.readFail, .closeT]) = 1
        rw [countOpens_append, countOpens_writeActs]
        decide
      · show countCloses (writeActs conn data ++ [.readFail, .closeT]) = 1
        rw [countCloses_append, countCloses_writeActs]
        decide
  | badPayload =>
      constructor
      · show countOpens (writeActs conn data ++ [.readResponse, .closeT]) = 1
        rw [countOpens_append, countOpens_writeActs]
        decide
      · show countCloses (writeActs conn data ++ [.readResponse, .closeT]) = 1
        rw [countCloses_append, countCloses_writeActs]
        decide
  | reply decoded =>
      constructor
      · show countOpens (writeActs conn data ++ [.readResponse, .closeT]) = 1
        rw [countOpens_append, countOpens_writeActs]
        decide
      · show countCloses (writeActs conn data ++ [.readResponse, .closeT]) = 1
        rw [countCloses_append, countCloses_writeActs]
        decide

theorem execute_log (conn : EapiConnection) (cmds : List String) (enc : String)
    (reqid : Option Nat) (outcome : WireResult)
    (henc : enc = "json" ∨ enc = "text") :
    (conn.execute cmds enc reqid outcome).2.2
      = (({ conn with error := none } : EapiConnection).send
          (dumps (EapiConnection.request { conn with error := none } cmds (some enc) reqid))
          outcome).2.2 := by
  unfold EapiConnection.execute
  rw [if_pos henc]
  cases outcome with
  | openError => rfl
  | ioError => rfl
  | badPayload => rfl
  | reply decoded =>
      cases hd : decodedDispatch decoded <;> simp [EapiConnection.send, hd]

/-! ### Claim theorems -/

/-- C2: for every command list, encoding in `json`/`text`, and optional
request id, the request builder returns an envelope with `jsonrpc = "2.0"`,
`method = "runCmds"`, `params.version = 1`, `params.cmds` the input list in
order, `params.format` the requested encoding, and `id` the stringification
of the supplied request id, defaulting to the stringified per-instance
identifier — a non-empty string in either case.  The builder is a pure
function: it performs no transport action. -/
theorem C2_request_envelope (conn : EapiConnection) (cmds : List String)
    (enc : String) (reqid : Option Nat)
    (henc : enc = "json" ∨ enc = "text") :
    (conn.request cmds (some enc) reqid).jsonrpc = "2.0"
    ∧ (conn.request cmds (some enc) reqid).method = "runCmds"
    ∧ (conn.request cmds (some enc) reqid).version = 1
    ∧ (conn.request cmds (some enc) reqid).cmds = cmds
    ∧ (conn.request cmds (some enc) reqid).format = some enc
    ∧ (conn.request cmds (some enc) reqid).id
        = (match reqid with
           | some r => toString r
           | none => toString conn.instId)
    ∧ (conn.request cmds (some enc) reqid).id ≠ "" := by
  refine ⟨rfl, rfl, rfl, rfl, rfl, ?_, ?_⟩
  · cases reqid <;> rfl
  · cases reqid <;> exact natToString_ne_empty _

/-- Witness for C2 at a concrete connection, command list and encoding. -/
theorem C2_request_envelope_witness :
    (EapiConnection.request connS ["show version"] (some "json") none).cmds
        = ["show version"]
    ∧ (EapiConnection.request connS ["show version"] (some "json") none).id ≠ "" :=
  ⟨(C2_request_envelope connS ["show version"] "json" none (Or.inl rfl)).2.2.2.1,
   (C2_request_envelope connS ["show version"] "json" none (Or.inl rfl)).2.2.2.2.2.2⟩

/-- C3: `execute` with an encoding outside `json`/`text` fails with the
`TypeError` of line 345 before any I/O: the result is the validation error,
the connection state (including the `error` slot) is returned unchanged,
and the transport action log is empty — nothing was opened, built or
sent. -/
theorem C3_invalid_encoding_rejected (conn : EapiConnection)
    (cmds : List String) (enc : String) (reqid : Option Nat)
    (outcome : WireResult)
    (henc : ¬(enc = "json" ∨ enc = "text")) :
    conn.execute cmds enc reqid outcome
      = (.typeError "encoding must be one of [json, text]", conn, ([] : List TAct)) := by
  unfold EapiConnection.execute
  rw [if_neg henc]

/-- Witness for C3 at the unsupported encoding `xml`. -/
theorem C3_invalid_encoding_witness :
    connS.execute ["show version"] "xml" none .ioError
      = (.typeError "encoding must be one of [json, text]", connS, ([] : List TAct)) :=
  C3_invalid_encoding_rejected connS ["show version"] "xml" none .ioError (by decide)

/-- C5: every `send` invocation — and hence every `execute` invocation that
reaches I/O — performs exactly one transport open attempt and exactly one
transport close, on every exit path (success, CommandError or
ConnectionError): the `finally` block of lines 313-314 runs once per
call. -/
theorem C5_transport_open_close (conn : EapiConnection) (data : String)
    (cmds : List String) (enc : String) (reqid : Option Nat)
    (outcome : WireResult) :
    (countOpens (conn.send data outcome).2.2 = 1
      ∧ countCloses (conn.send data outcome).2.2 = 1)
    ∧ ((enc = "json" ∨ enc = "text") →
        countOpens (conn.execute cmds enc reqid outcome).2.2 = 1
        ∧ countCloses (conn.execute cmds enc reqid outcome).2.2 = 1) := by
  refine ⟨send_counts conn data outcome, fun henc => ?_⟩
  rw [execute_log conn cmds enc reqid outcome henc]
  exact send_counts _ _ _

/-- Witness for C5 on an `execute` call whose exchange fails mid-flight. -/
theorem C5_transport_open_close_witness :
    countOpens (connS.execute ["show version"] "json" none .ioError).2.2 = 1
    ∧ countCloses (connS.execute ["show version"] "json" none .ioError).2.2 = 1 :=
  (C5_transport_open_close connS "" ["show version"] "json" none .ioError).2 (Or.inl rfl)

/-- C7: when the decoded envelope has no `error` member, `execute` returns
the full decoded envelope unchanged (all entries, in order, not just the
`result` member), and the `error` slot is empty afterwards. -/
theorem C7_success_envelope_returned (conn : EapiConnection)
    (cmds : List String) (enc : String) (reqid : Option Nat)
    (envelope : JsonObj)
    (henc : enc = "json" ∨ enc = "text")
    (hnoerr : lookupKey "error" envelope = none) :
    (conn.execute cmds enc reqid (.reply envelope)).1 = .success envelope
    ∧ (conn.execute cmds enc reqid (.reply envelope)).2.1.error = none := by
  have hd : decodedDispatch envelope = .success envelope := by
    unfold decodedDispatch
    rw [hnoerr]
  unfold EapiConnection.execute
  rw [if_pos henc]
  constructor <;> simp only [EapiConnection.send, hd]

/-- A sample success envelope with two result entries. -/
def envSuccess : JsonObj :=
  [("jsonrpc", Json.str "2.0"),
   ("result", Json.arr [Json.obj [], Json.obj [("warnings", Json.arr [Json.str "w"])]]),
   ("id", Json.str "1")]

/-- Witness for C7 on a success envelope with two result entries. -/
theorem C7_success_envelope_witness :
    (connS.execute ["show version", "show hostname"] "json" none
        (.reply envSuccess)).1 = .success envSuccess
    ∧ (connS.execute ["show version", "show hostname"] "json" none
        (.reply envSuccess)).2.1.error = none :=
  C7_success_envelope_returned connS ["show version", "show hostname"] "json" none
    envSuccess (Or.inl rfl) rfl

/-- A failure envelope with error code 1002 and message
`CLI command failed`. -/
def envCmdFail : JsonObj :=
  [("jsonrpc", Json.str "2.0"),
   ("error", Json.obj [("code", Json.num 1002), ("message", Json.str "CLI command failed")]),
   ("id", Json.str "1")]

/-- C4 (code bug): on a failure envelope with code 1002 and message
`CLI command failed`, `execute` raises a CommandError whose `error_code`,
`error_text` and attached `commands` are as the claim states and which is
stored in the `error` slot — but whose `message` attribute is the raw
message, not the documented concatenation `Error [1002]: CLI command
failed`: the `super().__init__(message)` call at line 91 overwrites the
formatted `self.message` assigned at line 90, contradicting the docstring
at lines 83-84. -/
theorem C4_command_error_message_bug :
    (connS.execute ["show hostname"] "json" none (.reply envCmdFail)).1
        = .cmdErr { error_code := 1002, error_text := "CLI command failed",
                    commands := some ["show hostname"],
                    message := "CLI command failed" }
    ∧ (connS.execute ["show hostname"] "json" none (.reply envCmdFail)).2.1.error
        = some (.cmd { error_code := 1002, error_text := "CLI command failed",
                       commands := some ["show hostname"],
                       message := "CLI command failed" })
    ∧ "CLI command failed" ≠ "Error [1002]: CLI command failed" :=
  ⟨rfl, rfl, by decide⟩

/-- C1 (counterexample): on a transport failure, the raised
ConnectionError's `connection_type` is `str(self)` of the Connection
(line 311), i.e. `EapiConnection(transport=unix:/var/run/command-api.sock)`
for the default socket variant — not the owned transport's identity string
`unix:/var/run/command-api.sock` as the claim states. -/
theorem C1_connection_type_counterexample :
    ExecuteResult.connTypeOf (connS.execute ["show version"] "json" none .ioError).1
        = some "EapiConnection(transport=unix:/var/run/command-api.sock)"
    ∧ ExecuteResult.connTypeOf (connS.execute ["show version"] "json" none .ioError).1
        ≠ some connS.transport.toStr
    ∧ connS.transport.toStr = "unix:/var/run/command-api.sock" :=
  ⟨rfl, by decide, rfl⟩

/-- C1 (amended): for every execute call whose exchange fails to
open/write/read or whose body fails to parse, execute raises a
ConnectionError whose `connection_type` is the Connection's own string
form `EapiConnection(transport=<identity>)` built from the owned
transport's identity string, whose message is exactly
`unable to connect to eAPI`, and which — with the command list
attached — is stored in the Connection's `error` slot; no partially
decoded result is returned. -/
theorem C1_connection_error_amended (conn : EapiConnection)
    (cmds : List String) (enc : String) (reqid : Option Nat)
    (outcome : WireResult)
    (henc : enc = "json" ∨ enc = "text") (hfail : outcome.isFailure) :
    (conn.execute cmds enc reqid outcome).1
        = .connErr { connection_type :=
                       "EapiConnection(transport=" ++ conn.transport.toStr ++ ")"
                     message := "unable to connect to eAPI"
                     commands := some cmds }
    ∧ (conn.execute cmds enc reqid outcome).2.1.error
        = some (.conn { connection_type :=
                          "EapiConnection(transport=" ++ conn.transport.toStr ++ ")"
                        message := "unable to connect to eAPI"
                        commands := some cmds }) := by
  unfold EapiConnection.execute
  rw [if_pos henc]
  cases outcome with
  | reply decoded => exact hfail.elim
  | openError => exact ⟨rfl, rfl⟩
  | ioError => exact ⟨rfl, rfl⟩
  | badPayload => exact ⟨rfl, rfl⟩

/-- Witness for the amended C1 on a mid-exchange transport failure. -/
theorem C1_connection_error_amended_witness :
    (connS.execute ["show version"] "json" none .ioError).1
        = .connErr { connection_type :=
                       "EapiConnection(transport=" ++ connS.transport.toStr ++ ")"
                     message := "unable to connect to eAPI"
                     commands := some ["show version"] }
    ∧ (connS.execute ["show version"] "json" none .ioError).2.1.error
        = some (.conn { connection_type :=
                          "EapiConnection(transport=" ++ connS.transport.toStr ++ ")"
                        message := "unable to connect to eAPI"
                        commands := some ["show version"] }) :=
  C1_connection_error_amended connS ["show version"] "json" none .ioError
    (Or.inl rfl) trivial

/-- A connection carrying a stale error from an earlier failed call. -/
def connStale : EapiConnection :=
  { SocketEapiConnection none 7 with error := some (.raw .socketError) }

/-- C6 (counterexample): the `error` slot is not reset at the start of
every top-level `execute` call: the encoding validation at lines 344-345
runs before the `self.error = None` reset at line 348, so a call rejected
for an unsupported encoding leaves a stale previous error in the slot
instead of clearing it. -/
theorem C6_error_reset_counterexample :
    (connStale.execute ["show version"] "xml" none (.reply [])).2.1.error
        = some (.raw .socketError)
    ∧ (connStale.execute ["show version"] "xml" none (.reply [])).2.1.error ≠ none
    ∧ (connStale.execute ["show version"] "xml" none (.reply [])).1
        = .typeError "encoding must be one of [json, text]" := by
  refine ⟨rfl, ?_, rfl⟩
  intro h
  rw [show (connStale.execute ["show version"] "xml" none (.reply [])).2.1.error
      = some (.raw .socketError) from rfl] at h
  exact Option.noConfusion h

/-- C6 (amended): the `error` slot is reset to empty at the start of every
`execute` call that passes the encoding validation, and after such a call
it holds exactly the ConnectionError or CommandError the call raised (and
is empty when the call succeeded or escaped with an untyped exception); a
call rejected for an unsupported encoding leaves the connection state —
including the slot — untouched. -/
theorem C6_error_slot_amended (conn : EapiConnection) (cmds : List String)
    (enc : String) (reqid : Option Nat) (outcome : WireResult) :
    ((enc = "json" ∨ enc = "text") →
      (conn.execute cmds enc reqid outcome).2.1.error
        = (match (conn.execute cmds enc reqid outcome).1 with
           | .connErr e => some (StoredError.conn e)
           | .cmdErr e => some (StoredError.cmd e)
           | _ => none))
    ∧ (¬(enc = "json" ∨ enc = "text") →
        (conn.execute cmds enc reqid outcome).2.1 = conn) := by
  constructor
  · intro henc
    unfold EapiConnection.execute
    rw [if_pos henc]
    cases outcome with
    | openError => rfl
    | ioError => rfl
    | badPayload => rfl
    | reply decoded =>
        cases hd : decodedDispatch decoded <;> simp [EapiConnection.send, hd]
  · intro henc
    unfold EapiConnection.execute
    rw [if_neg henc]

/-- Witness for the amended C6 on a malformed-payload failure. -/
theorem C6_error_slot_amended_witness :
    (connS.execute ["show version"] "json" none .badPayload).2.1.error
      = (match (connS.execute ["show version"] "json" none .badPayload).1 with
         | .connErr e => some (StoredError.conn e)
         | .cmdErr e => some (StoredError.cmd e)
         | _ => none) :=
  (C6_error_slot_amended connS ["show version"] "json" none .badPayload).1 (Or.inl rfl)

theorem auth_header_mem (conn : EapiConnection) (data tok : String)
    (hauth : conn._auth = some tok) (hne : tok ≠ "") :
    TAct.putHeader "Authorization" ("Basic " ++ tok) ∈ writeActs conn data := by
  unfold writeActs sendHeaderActs
  rw [hauth]
  simp [hne]

theorem no_auth_header (conn : EapiConnection) (data : String)
    (hauth : conn._auth = none) (k v : String)
    (hmem : TAct.putHeader k v ∈ writeActs conn data) :
    k = "Content-type" ∨ k = "Content-length" := by
  unfold writeActs sendHeaderActs at hmem
  rw [hauth] at hmem
  simp at hmem
  rcases hmem with ⟨hk, _⟩ | ⟨hk, _⟩
  · exact Or.inl hk
  · exact Or.inr hk

/-- C8: a request carries an `Authorization: Basic <token>` header exactly
when authentication has been configured on the Connection: after
`authentication(u, p)` the stored token is the plain base64 encoding of
`u:p` (the MIME encoding with its line breaks removed), it is never empty,
and every exchange that writes its request includes the header with that
token; a connection on which `authentication` was never called (its
`_auth` is `None`) never writes an `Authorization` header. -/
theorem C8_basic_auth_header (conn : EapiConnection) (u p data : String)
    (outcome : WireResult) :
    ((conn.authentication u p)._auth = some (plainB64 (u ++ ":" ++ p))
      ∧ plainB64 (u ++ ":" ++ p) ≠ ""
      ∧ (outcome.writesRequest →
          TAct.putHeader "Authorization" ("Basic " ++ plainB64 (u ++ ":" ++ p))
            ∈ ((conn.authentication u p).send data outcome).2.2))
    ∧ (conn._auth = none →
        ∀ k v, TAct.putHeader k v ∈ (conn.send data outcome).2.2 →
          k ≠ "Authorization") := by
  constructor
  · refine ⟨authentication_auth conn u p, plainB64_auth_ne_empty u p, ?_⟩
    intro hw
    have hmem := auth_header_mem (conn.authentication u p) data _
      (authentication_auth conn u p) (plainB64_auth_ne_empty u p)
    cases outcome with
    | openError => exact hw.elim
    | ioError => exact List.mem_append_left [.readFail, .closeT] hmem
    | badPayload => exact List.mem_append_left [.readResponse, .closeT] hmem
    | reply decoded => exact List.mem_append_left [.readResponse, .closeT] hmem
  · intro hauth k v hmem
    cases outcome with
    | openError => simp [EapiConnection.send] at hmem
    | ioError =>
        have hmem' : TAct.putHeader k v ∈ writeActs conn data := by
          rcases List.mem_append.1 hmem with h | h
          · exact h
          · simp at h
        rcases no_auth_header conn data hauth k v hmem' with h | h <;>
          subst h <;> decide
    | badPayload =>
        have hmem' : TAct.putHeader k v ∈ writeActs conn data := by
          rcases List.mem_append.1 hmem with h | h
          · exact h
          · simp at h
        rcases no_auth_header conn data hauth k v hmem' with h | h <;>
          subst h <;> decide
    | reply decoded =>
        have hmem' : TAct.putHeader k v ∈ writeActs conn data := by
          rcases List.mem_append.1 hmem with h | h
          · exact h
          · simp at h
        rcases no_auth_header conn data hauth k v hmem' with h | h <;>
          subst h <;> decide

/-- Witness for C8 with credentials `admin`/`x` on a completed exchange. -/
theorem C8_basic_auth_header_witness :
    (connS.authentication "admin" "x")._auth = some (plainB64 ("admin" ++ ":" ++ "x"))
    ∧ TAct.putHeader "Authorization" ("Basic " ++ plainB64 ("admin" ++ ":" ++ "x"))
        ∈ ((connS.authentication "admin" "x").send "body" (.reply [])).2.2 :=
  ⟨(C8_basic_auth_header connS "admin" "x" "body" (.reply [])).1.1,
   (C8_basic_auth_header connS "admin" "x" "body" (.reply [])).1.2.2 trivial⟩

/-- C9: each of the four variant constructors applies its documented
defaults when optional parameters are omitted (unix socket path
`/var/run/command-api.sock`, local-HTTP port 8080, HTTP port 80, HTTPS
port 443, HTTP(S) path `/command-api`), the transports' identity strings
follow the documented formats (`unix:<path>`,
`http://<host>:<port>/<path>`, `https://<host>:<port>/command-api`), and
the HTTP and HTTPS variants always configure authentication — even with
no credentials supplied — while the socket and local variants never
do. -/
theorem C9_variant_defaults (i : Nat) (host : String) (port : Option Nat)
    (path : Option String) (u p : Option String) :
    (SocketEapiConnection none i).transport = .socket "/var/run/command-api.sock"
    ∧ (SocketEapiConnection none i).transport.toStr = "unix:/var/run/command-api.sock"
    ∧ (HttpLocalEapiConnection none none i).transport
        = .http "/command-api" "localhost" 8080
    ∧ (HttpEapiConnection host none none u p i).transport
        = .http "/command-api" host 80
    ∧ (HttpsEapiConnection host none none u p i).transport
        = .https "/command-api" host 443
    ∧ (∀ pth hst prt, (Transport.socket pth).toStr = "unix:" ++ pth
        ∧ (Transport.http pth hst prt).toStr
            = "http://" ++ hst ++ ":" ++ toString prt ++ "/" ++ pth
        ∧ (Transport.https pth hst prt).toStr
            = "https://" ++ hst ++ ":" ++ toString prt ++ "/command-api")
    ∧ (HttpEapiConnection host port path u p i)._auth.isSome = true
    ∧ (HttpsEapiConnection host port path u p i)._auth.isSome = true
    ∧ (SocketEapiConnection path i)._auth = none
    ∧ (HttpLocalEapiConnection port path i)._auth = none := by
  refine ⟨rfl, rfl, rfl, rfl, rfl, fun pth hst prt => ⟨rfl, rfl, rfl⟩, ?_, ?_, rfl, rfl⟩
  · rw [show (HttpEapiConnection host port path u p i)._auth
        = some (plainB64 (pyStr u ++ ":" ++ pyStr p)) from authentication_auth _ _ _]
    rfl
  · rw [show (HttpsEapiConnection host port path u p i)._auth
        = some (plainB64 (pyStr u ++ ":" ++ pyStr p)) from authentication_auth _ _ _]
    rfl

theorem putRequest_writeActs (conn : EapiConnection) (data m pth : String)
    (hmem : TAct.putRequest m pth ∈ writeActs conn data) :
    m = "POST" ∧ pth = "/command-api" := by
  simp [writeActs] at hmem
  rcases hmem with ⟨hm, hp⟩ | h
  · exact ⟨hm, hp⟩
  · exact absurd h (putRequest_not_in_headers conn data m pth)

/-- C10: every request line a `send` call issues uses the literal path
`/command-api` (line 286) and the POST method, independently of the path
stored in the transport; replacing the connection's transport by any other
transport leaves the transport action log of the call unchanged, so a
custom path supplied to a constructor affects only the identity string,
never the path of the actual request. -/
theorem C10_literal_post_path (conn : EapiConnection) (data : String)
    (outcome : WireResult) (t2 : Transport) :
    (∀ m pth, TAct.putRequest m pth ∈ (conn.send data outcome).2.2 →
        m = "POST" ∧ pth = "/command-api")
    ∧ (({ conn with transport := t2 } : EapiConnection).send data outcome).2.2
        = (conn.send data outcome).2.2 := by
  constructor
  · intro m pth hmem
    cases outcome with
    | openError => simp [EapiConnection.send] at hmem
    | ioError =>
        refine putRequest_writeActs conn data m pth ?_
        rcases List.mem_append.1 hmem with h | h
        · exact h
        · simp at h
    | badPayload =>
        refine putRequest_writeActs conn data m pth ?_
        rcases List.mem_append.1 hmem with h | h
        · exact h
        · simp at h
    | reply decoded =>
        refine putRequest_writeActs conn data m pth ?_
        rcases List.mem_append.1 hmem with h | h
        · exact h
        · simp at h
  · cases outcome <;> rfl

/-- Witness for C10 on a completed exchange over the default socket
transport, with the transport swapped for one with another path. -/
theorem C10_literal_post_path_witness :
    ("POST" = "POST" ∧ "/command-api" = "/command-api")
    ∧ (({ connS with transport := Transport.socket "/other" } : EapiConnection).send
        "body" (.reply [])).2.2 = (connS.send "body" (.reply [])).2.2 :=
  ⟨(C10_literal_post_path connS "body" (.reply []) (.socket "/other")).1
      "POST" "/command-api" (by decide),
   (C10_literal_post_path connS "body" (.reply []) (.socket "/other")).2⟩

end Pyeapi
